import Mathlib

/-!
Shallow embedding of the bitcoin-hpke repository core:
the labeled key-derivation helpers of src/src/kdf.rs and the runtime
crypto-agility layer of src/examples/agility.rs.

Byte strings are modelled as lists of naturals; machine integers as Nat
with explicit reductions modulo powers of two where the source casts.
The external cryptographic collaborators (the hkdf crate, the concrete
key-exchange backends, the monomorphized HPKE setup routines) are out of
scope per the specification; they are abstracted as parameters, and a
process abort in the source is modelled as a distinguished result
constructor so that aborting and returning an error are distinguishable.
-/

deriving instance DecidableEq for Except

namespace Hpke

/-- Byte strings: lists of naturals (each intended below 256). -/
abbrev Bytes := List Nat

/-! ## src/src/kdf.rs -/

/-- `RFC_STR` from src/src/kdf.rs: the bytes of the protocol-version tag
"RFCXXXX " (8 bytes, trailing space included). -/
def RFC_STR : Bytes := [0x52, 0x46, 0x43, 0x58, 0x58, 0x58, 0x58, 0x20]

/-- The Rust cast `out.len() as u16`: reduction modulo 2^16. -/
def u16_of_usize (n : Nat) : Nat := n % 65536

/-- `write_u16::<BigEndian>` on a 2-byte buffer: big-endian byte split of a
u16 value. -/
def write_u16_be (v : Nat) : Bytes := [v / 256 % 256, v % 256]

/-- The arguments `labeled_expand` hands to the underlying hkdf `expand`
call: the PRK context it was invoked on, the labeled info string it built,
and the requested output length. -/
structure ExpandCall where
  prk : Bytes
  labeled_info : Bytes
  out_len : Nat
deriving DecidableEq

/-- Result of running `labeled_expand` up to the point where it calls the
external hkdf `expand`: either the `assert!(out.len() <= u16::MAX)` fails
(a process abort, not an error return), or the expand call is made with
the recorded arguments. -/
inductive LabeledExpandCall where
  | assertionFailure : LabeledExpandCall
  | call : ExpandCall → LabeledExpandCall
deriving DecidableEq

/-- `labeled_expand` from src/src/kdf.rs: asserts `out.len() <= u16::MAX`,
writes `out.len() as u16` big-endian into a 2-byte buffer, concatenates
`[len_buf, RFC_STR, label, info]`, and calls `expand` on that info string. -/
def labeled_expand (prk label info : Bytes) (out_len : Nat) : LabeledExpandCall :=
  if out_len ≤ 65535 then
    LabeledExpandCall.call
      ⟨prk, [write_u16_be (u16_of_usize out_len), RFC_STR, label, info].flatten, out_len⟩
  else
    LabeledExpandCall.assertionFailure

/-- Modelled from the spec: the external hkdf `expand` primitive (the
hash-based extract/expand collaborator, out of scope in src/) succeeds
exactly when the requested output length is within the digest expansion
limit of 255 hash-output blocks; success does not depend on the PRK or the
info string. -/
def hkdf_expand_ok (digest_len : Nat) (c : ExpandCall) : Bool :=
  c.out_len ≤ 255 * digest_len

/-- Three-valued outcome of a full `labeled_expand` run against a digest:
process abort at the assertion, an `InvalidLength` error return from
`expand`, or success. -/
inductive KdfRunResult where
  | panicked : KdfRunResult
  | invalidLength : KdfRunResult
  | ok : KdfRunResult
deriving DecidableEq

/-- A full `labeled_expand` run: the assertion, then the external `expand`
with its digest expansion limit. -/
def labeled_expand_run (digest_len : Nat) (prk label info : Bytes) (out_len : Nat) :
    KdfRunResult :=
  match labeled_expand prk label info out_len with
  | LabeledExpandCall.assertionFailure => KdfRunResult.panicked
  | LabeledExpandCall.call c =>
      if hkdf_expand_ok digest_len c then KdfRunResult.ok else KdfRunResult.invalidLength

/-- `labeled_extract` from src/src/kdf.rs, generic over the external hkdf
`extract` primitive (passed as a function argument): it concatenates
`[RFC_STR, label, ikm]` into the labeled IKM and calls `extract` with the
given salt. The source returns the extract output directly; there is no
error path. -/
def labeled_extract {α : Type} (extract : Bytes → Bytes → α)
    (salt label ikm : Bytes) : α :=
  extract salt ([RFC_STR, label, ikm].flatten)

/-- The 2-byte big-endian encoding of a length, as the spec words it
(defined for lengths at most 65535). -/
def encode_be2 (n : Nat) : Bytes := [n / 256, n % 256]

/-! ## src/examples/agility.rs: algorithm registry -/

/-- `AeadAlg` from src/examples/agility.rs. -/
inductive AeadAlg where
  | AesGcm128 : AeadAlg
  | AesGcm256 : AeadAlg
  | ChaCha20Poly1305 : AeadAlg
deriving DecidableEq

/-- `KdfAlg` from src/examples/agility.rs. -/
inductive KdfAlg where
  | HkdfSha256 : KdfAlg
  | HkdfSha384 : KdfAlg
  | HkdfSha512 : KdfAlg
deriving DecidableEq

/-- `KexAlg` from src/examples/agility.rs. -/
inductive KexAlg where
  | X25519 : KexAlg
  | X448 : KexAlg
  | DhP256 : KexAlg
  | DhP384 : KexAlg
  | DhP521 : KexAlg
deriving DecidableEq

/-- `KemAlg` from src/examples/agility.rs. -/
inductive KemAlg where
  | X25519HkdfSha256 : KemAlg
  | X448HkdfSha512 : KemAlg
  | DhP256HkdfSha256 : KemAlg
  | DhP384HkdfSha384 : KemAlg
  | DhP521HkdfSha512 : KemAlg
deriving DecidableEq

/-- `AgileHpkeError` from src/examples/agility.rs. `AlgMismatch` carries
`((alg1, alg1_location), (alg2, alg2_location))`; `UnknownAlgIdent` carries
`(alg_family, given_id)`. The wrapped `HpkeError` payload from the external
hpke crate is abstracted away. -/
inductive AgileHpkeError where
  | AlgMismatch : String × String → String × String → AgileHpkeError
  | UnknownAlgIdent : String → Nat → AgileHpkeError
  | HpkeError : AgileHpkeError
deriving DecidableEq

/-- `AeadAlg::name`. -/
def AeadAlg.name : AeadAlg → String
  | AeadAlg.AesGcm128 => "AesGcm128"
  | AeadAlg.AesGcm256 => "AesGcm256"
  | AeadAlg.ChaCha20Poly1305 => "ChaCha20Poly1305"

/-- `AeadAlg::try_from_u16`: ids are u16 values, modelled as Nat. -/
def AeadAlg.try_from_u16 (id : Nat) : Except AgileHpkeError AeadAlg :=
  match id with
  | 0x01 => Except.ok AeadAlg.AesGcm128
  | 0x02 => Except.ok AeadAlg.AesGcm256
  | 0x03 => Except.ok AeadAlg.ChaCha20Poly1305
  | _ => Except.error (AgileHpkeError.UnknownAlgIdent "AeadAlg" id)

/-- `AeadAlg::to_u16`. -/
def AeadAlg.to_u16 : AeadAlg → Nat
  | AeadAlg.AesGcm128 => 0x01
  | AeadAlg.AesGcm256 => 0x02
  | AeadAlg.ChaCha20Poly1305 => 0x03

/-- `KdfAlg::name`. -/
def KdfAlg.name : KdfAlg → String
  | KdfAlg.HkdfSha256 => "HkdfSha256"
  | KdfAlg.HkdfSha384 => "HkdfSha384"
  | KdfAlg.HkdfSha512 => "HkdfSha512"

/-- `KdfAlg::get_digest_len`: the digest output size in bytes. -/
def KdfAlg.get_digest_len : KdfAlg → Nat
  | KdfAlg.HkdfSha256 => 32
  | KdfAlg.HkdfSha384 => 48
  | KdfAlg.HkdfSha512 => 64

/-- `KexAlg::name`. -/
def KexAlg.name : KexAlg → String
  | KexAlg.X25519 => "X25519"
  | KexAlg.X448 => "X448"
  | KexAlg.DhP256 => "P256"
  | KexAlg.DhP384 => "P384"
  | KexAlg.DhP521 => "P521"

/-- `KemAlg::name`. -/
def KemAlg.name : KemAlg → String
  | KemAlg.DhP256HkdfSha256 => "DhP256HkdfSha256"
  | KemAlg.DhP384HkdfSha384 => "DhP384HkdfSha384"
  | KemAlg.DhP521HkdfSha512 => "DhP521HkdfSha512"
  | KemAlg.X25519HkdfSha256 => "X25519HkdfSha256"
  | KemAlg.X448HkdfSha512 => "X448HkdfSha512"

/-- `KemAlg::kex_alg`: the key-exchange family of a KEM. -/
def KemAlg.kex_alg : KemAlg → KexAlg
  | KemAlg.X25519HkdfSha256 => KexAlg.X25519
  | KemAlg.X448HkdfSha512 => KexAlg.X448
  | KemAlg.DhP256HkdfSha256 => KexAlg.DhP256
  | KemAlg.DhP384HkdfSha384 => KexAlg.DhP384
  | KemAlg.DhP521HkdfSha512 => KexAlg.DhP521

/-- `KemAlg::kdf_alg`: the KDF associated with a KEM. -/
def KemAlg.kdf_alg : KemAlg → KdfAlg
  | KemAlg.X25519HkdfSha256 => KdfAlg.HkdfSha256
  | KemAlg.X448HkdfSha512 => KdfAlg.HkdfSha512
  | KemAlg.DhP256HkdfSha256 => KdfAlg.HkdfSha256
  | KemAlg.DhP384HkdfSha384 => KdfAlg.HkdfSha384
  | KemAlg.DhP521HkdfSha512 => KdfAlg.HkdfSha512

/-! ## src/examples/agility.rs: tagged values -/

/-- `AgilePublicKey`: a KexAlg tag plus opaque marshalled bytes. -/
structure AgilePublicKey where
  kex_alg : KexAlg
  pubkey_bytes : Bytes
deriving DecidableEq

/-- `AgilePrivateKey`. -/
structure AgilePrivateKey where
  kex_alg : KexAlg
  privkey_bytes : Bytes
deriving DecidableEq

/-- `AgileEncappedKey`. -/
structure AgileEncappedKey where
  kex_alg : KexAlg
  encapped_key_bytes : Bytes
deriving DecidableEq

/-- `AgileKeypair(sk, pk)`: `fst` is the private key (`.0` in the source),
`snd` the public key (`.1`). -/
structure AgileKeypair where
  fst : AgilePrivateKey
  snd : AgilePublicKey
deriving DecidableEq

/-- `AgileKeypair::validate`: a pure check on the two KexAlg tags; it never
touches the key buffers (no lift, no unmarshal). -/
def AgileKeypair.validate (kp : AgileKeypair) : Except AgileHpkeError Unit :=
  if kp.fst.kex_alg ≠ kp.snd.kex_alg then
    Except.error (AgileHpkeError.AlgMismatch
      (kp.fst.kex_alg.name, "AgileKeypair::privkey")
      (kp.snd.kex_alg.name, "AgileKeypair::pubkey"))
  else
    Except.ok ()

/-- `AgilePskBundle`. -/
structure AgilePskBundle where
  kex_alg : KexAlg
  kdf_alg : KdfAlg
  psk_bytes : Bytes
  psk_id : Bytes
deriving DecidableEq

/-! ## src/examples/agility.rs: operation modes -/

/-- `AgileOpModeRTy`: the receiver-side variant payloads. -/
inductive AgileOpModeRTy where
  | Base : AgileOpModeRTy
  | Psk : AgilePskBundle → AgileOpModeRTy
  | Auth : AgilePublicKey → AgileOpModeRTy
  | AuthPsk : AgilePublicKey → AgilePskBundle → AgileOpModeRTy
deriving DecidableEq

/-- `AgileOpModeR`. -/
structure AgileOpModeR where
  kex_alg : KexAlg
  kdf_alg : KdfAlg
  op_mode_ty : AgileOpModeRTy
deriving DecidableEq

/-- `AgileOpModeR::validate`, branch for branch from the source: in the
`AuthPsk` variant the bundle KexAlg check comes first, then the bundle
KdfAlg check, then the public-key KexAlg check. The function reads only
the tags; it performs no lift or unmarshal. -/
def AgileOpModeR.validate (m : AgileOpModeR) : Except AgileHpkeError Unit :=
  match m.op_mode_ty with
  | AgileOpModeRTy.Base => Except.ok ()
  | AgileOpModeRTy.Psk bundle =>
      if bundle.kex_alg ≠ m.kex_alg then
        Except.error (AgileHpkeError.AlgMismatch
          (m.kex_alg.name, "AgileOpModeR::kex_alg")
          (bundle.kex_alg.name, "AgileOpModeR::op_mode_ty::AgilePskBundle::kex_alg"))
      else if bundle.kdf_alg ≠ m.kdf_alg then
        Except.error (AgileHpkeError.AlgMismatch
          (m.kdf_alg.name, "AgileOpModeR::kdf_alg")
          (bundle.kdf_alg.name, "AgileOpModeR::op_mode_ty::AgilePskBundle::kdf_alg"))
      else Except.ok ()
  | AgileOpModeRTy.Auth pk =>
      if pk.kex_alg ≠ m.kex_alg then
        Except.error (AgileHpkeError.AlgMismatch
          (m.kex_alg.name, "AgileOpModeR::kex_alg")
          (pk.kex_alg.name, "AgileOpModeR::op_mode_ty::AgilePublicKey::kex_alg"))
      else Except.ok ()
  | AgileOpModeRTy.AuthPsk pk bundle =>
      if bundle.kex_alg ≠ m.kex_alg then
        Except.error (AgileHpkeError.AlgMismatch
          (m.kex_alg.name, "AgileOpModeR::kex_alg")
          (bundle.kex_alg.name, "AgileOpModeR::op_mode_ty::AgilePskBundle::kex_alg"))
      else if bundle.kdf_alg ≠ m.kdf_alg then
        Except.error (AgileHpkeError.AlgMismatch
          (m.kdf_alg.name, "AgileOpModeR::kdf_alg")
          (bundle.kdf_alg.name, "AgileOpModeR::op_mode_ty::AgilePskBundle::kdf_alg"))
      else if pk.kex_alg ≠ m.kex_alg then
        Except.error (AgileHpkeError.AlgMismatch
          (m.kex_alg.name, "AgileOpModeR::kex_alg")
          (pk.kex_alg.name, "AgileOpModeR::op_mode_ty::AgilePublicKey::kex_alg"))
      else Except.ok ()

/-- `AgileOpModeSTy`: the sender-side variant payloads. -/
inductive AgileOpModeSTy where
  | Base : AgileOpModeSTy
  | Psk : AgilePskBundle → AgileOpModeSTy
  | Auth : AgileKeypair → AgileOpModeSTy
  | AuthPsk : AgileKeypair → AgilePskBundle → AgileOpModeSTy
deriving DecidableEq

/-- `AgileOpModeS`. -/
structure AgileOpModeS where
  kex_alg : KexAlg
  kdf_alg : KdfAlg
  op_mode_ty : AgileOpModeSTy
deriving DecidableEq

/-- `AgileOpModeS::validate`, branch for branch from the source: in the
`Auth` and `AuthPsk` variants the nested keypair is validated first
(`keypair.validate()?`); in `AuthPsk` the bundle KexAlg check then comes
before the bundle KdfAlg check, which comes before the keypair-vs-mode
KexAlg check. The function reads only the tags; no lift or unmarshal. -/
def AgileOpModeS.validate (m : AgileOpModeS) : Except AgileHpkeError Unit :=
  match m.op_mode_ty with
  | AgileOpModeSTy.Base => Except.ok ()
  | AgileOpModeSTy.Psk bundle =>
      if bundle.kex_alg ≠ m.kex_alg then
        Except.error (AgileHpkeError.AlgMismatch
          (m.kex_alg.name, "AgileOpModeS::kex_alg")
          (bundle.kex_alg.name, "AgileOpModeS::op_mode_ty::AgilePskBundle::kex_alg"))
      else if bundle.kdf_alg ≠ m.kdf_alg then
        Except.error (AgileHpkeError.AlgMismatch
          (m.kdf_alg.name, "AgileOpModeS::kdf_alg")
          (bundle.kdf_alg.name, "AgileOpModeS::op_mode_ty::AgilePskBundle::kdf_alg"))
      else Except.ok ()
  | AgileOpModeSTy.Auth keypair =>
      match keypair.validate with
      | Except.error e => Except.error e
      | Except.ok _ =>
          if keypair.fst.kex_alg ≠ m.kex_alg then
            Except.error (AgileHpkeError.AlgMismatch
              (m.kex_alg.name, "AgileOpModeS::kex_alg")
              (keypair.fst.kex_alg.name,
                "AgileOpModeS::op_mode_ty::AgilePrivateKey::kex_alg"))
          else Except.ok ()
  | AgileOpModeSTy.AuthPsk keypair bundle =>
      match keypair.validate with
      | Except.error e => Except.error e
      | Except.ok _ =>
          if bundle.kex_alg ≠ m.kex_alg then
            Except.error (AgileHpkeError.AlgMismatch
              (m.kex_alg.name, "AgileOpModeS::kex_alg")
              (bundle.kex_alg.name, "AgileOpModeS::op_mode_ty::AgilePskBundle::kex_alg"))
          else if bundle.kdf_alg ≠ m.kdf_alg then
            Except.error (AgileHpkeError.AlgMismatch
              (m.kdf_alg.name, "AgileOpModeS::kdf_alg")
              (bundle.kdf_alg.name, "AgileOpModeS::op_mode_ty::AgilePskBundle::kdf_alg"))
          else if keypair.fst.kex_alg ≠ m.kex_alg then
            Except.error (AgileHpkeError.AlgMismatch
              (m.kex_alg.name, "AgileOpModeS::kex_alg")
              (keypair.fst.kex_alg.name,
                "AgileOpModeS::op_mode_ty::AgilePrivateKey::kex_alg"))
          else Except.ok ()

/-! ## src/examples/agility.rs: key generation and the dispatch engine -/

/-- Modelled from the spec: the external key-exchange backend
(`Kex::gen_keypair` plus `marshal`, the concrete X25519/P-256
implementations are not under src/). Per the spec contract it produces a
private/public keypair from the injected csprng; only its marshalled
bytes matter to the agility layer, so it is abstracted as those bytes. -/
structure KeygenOutput where
  sk_bytes : Bytes
  pk_bytes : Bytes
deriving DecidableEq

/-- `agile_gen_keypair`: for `X25519` and `DhP256` it tags both marshalled
keys with the requested KexAlg (the `do_gen_keypair!` macro); every other
KexAlg hits `unimplemented!()`, modelled as `none`. -/
def agile_gen_keypair (kex_alg : KexAlg) (gen : KeygenOutput) : Option AgileKeypair :=
  match kex_alg with
  | KexAlg.X25519 =>
      some ⟨⟨kex_alg, gen.sk_bytes⟩, ⟨kex_alg, gen.pk_bytes⟩⟩
  | KexAlg.DhP256 =>
      some ⟨⟨kex_alg, gen.sk_bytes⟩, ⟨kex_alg, gen.pk_bytes⟩⟩
  | _ => none

/-- The combinations enumerated by the `hpke_dispatch!` invocations in
`agile_setup_sender` and `agile_setup_receiver`: every AeadAlg, every
KdfAlg, and the two KEMs `X25519HkdfSha256` and `DhP256HkdfSha256`.
`res` is set (Some) exactly when the triple matches a branch. -/
def dispatch_supported (aead : AeadAlg) (kem : KemAlg) (kdf : KdfAlg) : Bool :=
  (decide (aead = AeadAlg.ChaCha20Poly1305) || decide (aead = AeadAlg.AesGcm128)
      || decide (aead = AeadAlg.AesGcm256))
    && (decide (kdf = KdfAlg.HkdfSha256) || decide (kdf = KdfAlg.HkdfSha384)
      || decide (kdf = KdfAlg.HkdfSha512))
    && (decide (kem = KemAlg.X25519HkdfSha256) || decide (kem = KemAlg.DhP256HkdfSha256))

/-- Result of `agile_setup_sender` / `agile_setup_receiver` as far as the
agility layer controls it: an error return from validation, the `panic!`
on a dispatch miss (carrying the KemAlg name interpolated into the panic
message), or the invocation of the statically monomorphized setup routine
for the matched triple. The external routine (`do_setup_sender` /
`do_setup_receiver`) is out of scope; its own failures are wrapped
`HpkeError`s, never an `AlgMismatch`, so abstracting it as the dispatched
triple loses no validation behaviour. -/
inductive SetupResult where
  | error : AgileHpkeError → SetupResult
  | panicked : String → SetupResult
  | dispatched : AeadAlg → KemAlg → KdfAlg → SetupResult
deriving DecidableEq

/-- `agile_setup_sender`, check for check from the source: mode
validation, then the `mode` vs `pk_recip` tag check, then the `kem_alg`
vs `mode` tag check, then the `pk_recip` vs `mode` tag check, then the
dispatch. `info` and the csprng are consumed only by the external routine
and do not influence this control flow. -/
def agile_setup_sender (aead_alg : AeadAlg) (kem_alg : KemAlg)
    (mode : AgileOpModeS) (pk_recip : AgilePublicKey) : SetupResult :=
  match mode.validate with
  | Except.error e => SetupResult.error e
  | Except.ok _ =>
      if mode.kex_alg ≠ pk_recip.kex_alg then
        SetupResult.error (AgileHpkeError.AlgMismatch
          (mode.kex_alg.name, "mode::kex_alg")
          (pk_recip.kex_alg.name, "pk_recip::kex_alg"))
      else if kem_alg.kex_alg ≠ mode.kex_alg then
        SetupResult.error (AgileHpkeError.AlgMismatch
          (kem_alg.kex_alg.name, "kem_alg::kex_alg")
          (mode.kex_alg.name, "mode::kex_alg"))
      else if pk_recip.kex_alg ≠ mode.kex_alg then
        SetupResult.error (AgileHpkeError.AlgMismatch
          (pk_recip.kex_alg.name, "pk_recip::kex_alg")
          (mode.kex_alg.name, "mode::kex_alg"))
      else if dispatch_supported aead_alg kem_alg mode.kdf_alg then
        SetupResult.dispatched aead_alg kem_alg mode.kdf_alg
      else
        SetupResult.panicked kem_alg.name

/-- `agile_setup_receiver`, check for check from the source: recipient
keypair validation, mode validation, the `mode` vs `recip_keypair` tag
check, the `kem_alg` vs `mode` tag check, the `recip_keypair` vs
`encapped_key` tag check, then the dispatch. -/
def agile_setup_receiver (aead_alg : AeadAlg) (kem_alg : KemAlg)
    (mode : AgileOpModeR) (recip_keypair : AgileKeypair)
    (encapped_key : AgileEncappedKey) : SetupResult :=
  match recip_keypair.validate with
  | Except.error e => SetupResult.error e
  | Except.ok _ =>
      match mode.validate with
      | Except.error e => SetupResult.error e
      | Except.ok _ =>
          if mode.kex_alg ≠ recip_keypair.fst.kex_alg then
            SetupResult.error (AgileHpkeError.AlgMismatch
              (mode.kex_alg.name, "mode::kex_alg")
              (recip_keypair.fst.kex_alg.name, "recip_keypair::kex_alg"))
          else if kem_alg.kex_alg ≠ mode.kex_alg then
            SetupResult.error (AgileHpkeError.AlgMismatch
              (kem_alg.kex_alg.name, "kem_alg::kex_alg")
              (mode.kex_alg.name, "mode::kex_alg"))
          else if recip_keypair.fst.kex_alg ≠ encapped_key.kex_alg then
            SetupResult.error (AgileHpkeError.AlgMismatch
              (recip_keypair.fst.kex_alg.name, "recip_keypair::kex_alg")
              (encapped_key.kex_alg.name, "encapped_key::kex_alg"))
          else if dispatch_supported aead_alg kem_alg mode.kdf_alg then
            SetupResult.dispatched aead_alg kem_alg mode.kdf_alg
          else
            SetupResult.panicked kem_alg.name

/-! ## Theorems for the claims -/

/-- C1: with the X448 KEM, arguments that pass every cross-tag validation
reach the dispatch-miss branch, and there both `agile_setup_sender` and
`agile_setup_receiver` abort the process via `panic!` instead of returning
an unsupported-combination error value, contradicting the claim and the
propagation policy of the spec (which itself flags this abort as a
defect). -/
theorem c1_dispatch_miss_aborts :
    agile_setup_sender AeadAlg.ChaCha20Poly1305 KemAlg.X448HkdfSha512
        (AgileOpModeS.mk KexAlg.X448 KdfAlg.HkdfSha256 AgileOpModeSTy.Base)
        ⟨KexAlg.X448, []⟩ = SetupResult.panicked "X448HkdfSha512" ∧
      agile_setup_receiver AeadAlg.ChaCha20Poly1305 KemAlg.X448HkdfSha512
          (AgileOpModeR.mk KexAlg.X448 KdfAlg.HkdfSha256 AgileOpModeRTy.Base)
          (AgileKeypair.mk ⟨KexAlg.X448, []⟩ ⟨KexAlg.X448, []⟩) ⟨KexAlg.X448, []⟩ =
        SetupResult.panicked "X448HkdfSha512" := by
  decide

/-- C2: for every PRK context, label, info and output length at most
65535, `labeled_expand` calls the underlying expand with an info string
that is exactly the 2-byte big-endian encoding of the output length,
then the protocol tag "RFCXXXX ", then the label, then the info, in that
order. -/
theorem c2_labeled_expand_info_layout (prk label info : Bytes) (out_len : Nat)
    (h : out_len ≤ 65535) :
    labeled_expand prk label info out_len =
      LabeledExpandCall.call
        ⟨prk, encode_be2 out_len ++ RFC_STR ++ label ++ info, out_len⟩ := by
  have h1 : u16_of_usize out_len = out_len := Nat.mod_eq_of_lt (by omega)
  have h2 : out_len / 256 % 256 = out_len / 256 := Nat.mod_eq_of_lt (by omega)
  simp [labeled_expand, h, write_u16_be, h1, h2, encode_be2]

/-- Witness for C2 at a concrete input. -/
theorem c2_labeled_expand_info_layout_witness :
    300 ≤ 65535 ∧
      labeled_expand [9] [1, 2] [3] 300 =
        LabeledExpandCall.call ⟨[9], encode_be2 300 ++ RFC_STR ++ [1, 2] ++ [3], 300⟩ :=
  ⟨by decide, c2_labeled_expand_info_layout [9] [1, 2] [3] 300 (by decide)⟩

/-- C3 counterexample: at output length 65536 a `labeled_expand` run hits
the assertion and aborts; it does not return the InvalidLength error the
claim promises. -/
theorem c3_counterexample :
    labeled_expand_run (KdfAlg.get_digest_len KdfAlg.HkdfSha512) [] [] [] 65536 =
        KdfRunResult.panicked ∧
      labeled_expand_run (KdfAlg.get_digest_len KdfAlg.HkdfSha512) [] [] [] 65536 ≠
        KdfRunResult.invalidLength := by
  decide

/-- C3 (amended): at output length 65536 `labeled_expand` fails the
assertion and aborts rather than returning an error; at 65535 the
assertion passes and the run succeeds exactly when 65535 is within the
digest expansion limit of 255 hash blocks — which none of the three
supported digests reaches, so with those the run returns the
InvalidLength error. -/
theorem c3_expand_length_boundary (digest_len : Nat) (prk label info : Bytes) :
    labeled_expand_run digest_len prk label info 65536 = KdfRunResult.panicked ∧
      (labeled_expand_run digest_len prk label info 65535 = KdfRunResult.ok ↔
        65535 ≤ 255 * digest_len) ∧
      ∀ k : KdfAlg, labeled_expand_run k.get_digest_len prk label info 65535 =
        KdfRunResult.invalidLength := by
  refine ⟨by simp [labeled_expand_run, labeled_expand], ?_, ?_⟩
  · by_cases hd : 65535 ≤ 255 * digest_len <;>
      simp [labeled_expand_run, labeled_expand, hkdf_expand_ok, hd]
  · intro k
    cases k <;> simp [labeled_expand_run, labeled_expand, hkdf_expand_ok,
      KdfAlg.get_digest_len]

/-- C4 counterexample: a sender AuthPsk mode whose bundle KexAlg differs
from the declared KexAlg, but whose nested keypair is itself
inconsistent. `validate` returns the AlgMismatch of the keypair (checked
first), not the declared-first/bundle-second AlgMismatch the claim
promises, and the two errors differ. -/
theorem c4_counterexample :
    (AgilePskBundle.mk KexAlg.DhP256 KdfAlg.HkdfSha256 [] []).kex_alg ≠ KexAlg.X25519 ∧
      (AgileOpModeS.mk KexAlg.X25519 KdfAlg.HkdfSha256
          (AgileOpModeSTy.AuthPsk
            (AgileKeypair.mk ⟨KexAlg.X25519, []⟩ ⟨KexAlg.DhP256, []⟩)
            (AgilePskBundle.mk KexAlg.DhP256 KdfAlg.HkdfSha256 [] []))).validate =
        Except.error (AgileHpkeError.AlgMismatch
          ("X25519", "AgileKeypair::privkey") ("P256", "AgileKeypair::pubkey")) ∧
      (Except.error (AgileHpkeError.AlgMismatch
          ("X25519", "AgileKeypair::privkey") ("P256", "AgileKeypair::pubkey")) :
            Except AgileHpkeError Unit) ≠
        Except.error (AgileHpkeError.AlgMismatch
          ("X25519", "AgileOpModeS::kex_alg")
          ("P256", "AgileOpModeS::op_mode_ty::AgilePskBundle::kex_alg")) := by
  decide

/-- C4 (amended): a bundle KexAlg mismatch makes `validate` fail with the
declared algorithm and location first and the bundle algorithm and
location second, before any lift, in all bundle-carrying variants —
except that the sender-side Auth and AuthPsk variants validate the nested
keypair first, so when the keypair tags themselves disagree the error
returned is that keypair AlgMismatch instead. -/
theorem c4_bundle_mismatch_reporting :
    (∀ (m : AgileOpModeR) (b : AgilePskBundle),
      m.op_mode_ty = AgileOpModeRTy.Psk b → b.kex_alg ≠ m.kex_alg →
      m.validate = Except.error (AgileHpkeError.AlgMismatch
        (m.kex_alg.name, "AgileOpModeR::kex_alg")
        (b.kex_alg.name, "AgileOpModeR::op_mode_ty::AgilePskBundle::kex_alg"))) ∧
    (∀ (m : AgileOpModeR) (pk : AgilePublicKey) (b : AgilePskBundle),
      m.op_mode_ty = AgileOpModeRTy.AuthPsk pk b → b.kex_alg ≠ m.kex_alg →
      m.validate = Except.error (AgileHpkeError.AlgMismatch
        (m.kex_alg.name, "AgileOpModeR::kex_alg")
        (b.kex_alg.name, "AgileOpModeR::op_mode_ty::AgilePskBundle::kex_alg"))) ∧
    (∀ (m : AgileOpModeS) (b : AgilePskBundle),
      m.op_mode_ty = AgileOpModeSTy.Psk b → b.kex_alg ≠ m.kex_alg →
      m.validate = Except.error (AgileHpkeError.AlgMismatch
        (m.kex_alg.name, "AgileOpModeS::kex_alg")
        (b.kex_alg.name, "AgileOpModeS::op_mode_ty::AgilePskBundle::kex_alg"))) ∧
    (∀ (m : AgileOpModeS) (kp : AgileKeypair) (b : AgilePskBundle),
      m.op_mode_ty = AgileOpModeSTy.AuthPsk kp b → kp.validate = Except.ok () →
      b.kex_alg ≠ m.kex_alg →
      m.validate = Except.error (AgileHpkeError.AlgMismatch
        (m.kex_alg.name, "AgileOpModeS::kex_alg")
        (b.kex_alg.name, "AgileOpModeS::op_mode_ty::AgilePskBundle::kex_alg"))) ∧
    (∀ (m : AgileOpModeS) (kp : AgileKeypair) (b : AgilePskBundle),
      m.op_mode_ty = AgileOpModeSTy.AuthPsk kp b →
      kp.fst.kex_alg ≠ kp.snd.kex_alg →
      m.validate = Except.error (AgileHpkeError.AlgMismatch
        (kp.fst.kex_alg.name, "AgileKeypair::privkey")
        (kp.snd.kex_alg.name, "AgileKeypair::pubkey"))) := by
  refine ⟨?_, ?_, ?_, ?_, ?_⟩
  · intro m b hty hb
    simp [AgileOpModeR.validate, hty, hb]
  · intro m pk b hty hb
    simp [AgileOpModeR.validate, hty, hb]
  · intro m b hty hb
    simp [AgileOpModeS.validate, hty, hb]
  · intro m kp b hty hkp hb
    simp [AgileOpModeS.validate, hty, hkp, hb]
  · intro m kp b hty hkp
    simp [AgileOpModeS.validate, AgileKeypair.validate, hty, hkp]

/-- Witness for C4 (amended) at a concrete receiver Psk mode. -/
theorem c4_bundle_mismatch_reporting_witness :
    (AgileOpModeR.mk KexAlg.X25519 KdfAlg.HkdfSha256
        (AgileOpModeRTy.Psk
          (AgilePskBundle.mk KexAlg.DhP256 KdfAlg.HkdfSha256 [] []))).validate =
      Except.error (AgileHpkeError.AlgMismatch
        ("X25519", "AgileOpModeR::kex_alg")
        ("P256", "AgileOpModeR::op_mode_ty::AgilePskBundle::kex_alg")) :=
  c4_bundle_mismatch_reporting.1
    (AgileOpModeR.mk KexAlg.X25519 KdfAlg.HkdfSha256
      (AgileOpModeRTy.Psk (AgilePskBundle.mk KexAlg.DhP256 KdfAlg.HkdfSha256 [] [])))
    (AgilePskBundle.mk KexAlg.DhP256 KdfAlg.HkdfSha256 [] []) rfl (by decide)

/-- C5 counterexample: a receiver AuthPsk mode in which both the nested
public key and the nested bundle disagree with the declared KexAlg.
`validate` reports the bundle mismatch, and that error differs from the
public-key mismatch the claim promises (the public key is the payload
field declared first in the variant). -/
theorem c5_counterexample :
    (AgileOpModeR.mk KexAlg.X25519 KdfAlg.HkdfSha256
        (AgileOpModeRTy.AuthPsk ⟨KexAlg.DhP256, []⟩
          (AgilePskBundle.mk KexAlg.DhP256 KdfAlg.HkdfSha256 [] []))).validate =
      Except.error (AgileHpkeError.AlgMismatch
        ("X25519", "AgileOpModeR::kex_alg")
        ("P256", "AgileOpModeR::op_mode_ty::AgilePskBundle::kex_alg")) ∧
      (Except.error (AgileHpkeError.AlgMismatch
          ("X25519", "AgileOpModeR::kex_alg")
          ("P256", "AgileOpModeR::op_mode_ty::AgilePskBundle::kex_alg")) :
            Except AgileHpkeError Unit) ≠
        Except.error (AgileHpkeError.AlgMismatch
          ("X25519", "AgileOpModeR::kex_alg")
          ("P256", "AgileOpModeR::op_mode_ty::AgilePublicKey::kex_alg")) := by
  decide

/-- C5 (amended): in the receiver AuthPsk variant the checks run bundle
KexAlg first, bundle KdfAlg second, public key last, so when both the
public key and the bundle disagree with the declared KexAlg, `validate`
stops at the bundle check and the AlgMismatch names the bundle tag and
location, not the public key. -/
theorem c5_authpsk_reports_bundle_first (m : AgileOpModeR) (pk : AgilePublicKey)
    (b : AgilePskBundle) (hty : m.op_mode_ty = AgileOpModeRTy.AuthPsk pk b)
    (_hpk : pk.kex_alg ≠ m.kex_alg) (hb : b.kex_alg ≠ m.kex_alg) :
    m.validate = Except.error (AgileHpkeError.AlgMismatch
      (m.kex_alg.name, "AgileOpModeR::kex_alg")
      (b.kex_alg.name, "AgileOpModeR::op_mode_ty::AgilePskBundle::kex_alg")) := by
  simp [AgileOpModeR.validate, hty, hb]

/-- Witness for C5 (amended) at a concrete mode. -/
theorem c5_authpsk_reports_bundle_first_witness :
    (AgileOpModeR.mk KexAlg.X448 KdfAlg.HkdfSha512
        (AgileOpModeRTy.AuthPsk ⟨KexAlg.X25519, []⟩
          (AgilePskBundle.mk KexAlg.DhP256 KdfAlg.HkdfSha512 [] []))).validate =
      Except.error (AgileHpkeError.AlgMismatch
        ("X448", "AgileOpModeR::kex_alg")
        ("P256", "AgileOpModeR::op_mode_ty::AgilePskBundle::kex_alg")) :=
  c5_authpsk_reports_bundle_first
    (AgileOpModeR.mk KexAlg.X448 KdfAlg.HkdfSha512
      (AgileOpModeRTy.AuthPsk ⟨KexAlg.X25519, []⟩
        (AgilePskBundle.mk KexAlg.DhP256 KdfAlg.HkdfSha512 [] [])))
    ⟨KexAlg.X25519, []⟩ (AgilePskBundle.mk KexAlg.DhP256 KdfAlg.HkdfSha512 [] [])
    rfl (by decide) (by decide)

/-- C6: for every extract primitive, salt, label and ikm,
`labeled_extract` calls extract with the given salt and an IKM that is
exactly the protocol tag "RFCXXXX ", then the label, then the ikm, in
that order; its return type has no error path. -/
theorem c6_labeled_extract_ikm_layout {α : Type} (extract : Bytes → Bytes → α)
    (salt label ikm : Bytes) :
    labeled_extract extract salt label ikm = extract salt (RFC_STR ++ label ++ ikm) := by
  simp [labeled_extract]

/-- C7: `AgileKeypair.validate` succeeds exactly when the private and
public tags agree; on disagreement it returns the AlgMismatch carrying
the private tag and location first and the public tag and location
second; and it depends only on the tags, never on the key buffers (no
lift or unmarshal). -/
theorem c7_keypair_validate_spec (kp : AgileKeypair) :
    (kp.validate = Except.ok () ↔ kp.fst.kex_alg = kp.snd.kex_alg) ∧
      (kp.fst.kex_alg ≠ kp.snd.kex_alg →
        kp.validate = Except.error (AgileHpkeError.AlgMismatch
          (kp.fst.kex_alg.name, "AgileKeypair::privkey")
          (kp.snd.kex_alg.name, "AgileKeypair::pubkey"))) ∧
      ∀ sk pk : Bytes,
        (AgileKeypair.mk ⟨kp.fst.kex_alg, sk⟩ ⟨kp.snd.kex_alg, pk⟩).validate =
          kp.validate := by
  by_cases h : kp.fst.kex_alg = kp.snd.kex_alg <;>
    simp [AgileKeypair.validate, h]

/-- Witness for C7 at a concrete mismatched keypair. -/
theorem c7_keypair_validate_spec_witness :
    (AgileKeypair.mk ⟨KexAlg.X25519, []⟩ ⟨KexAlg.DhP256, []⟩).validate =
      Except.error (AgileHpkeError.AlgMismatch
        ("X25519", "AgileKeypair::privkey") ("P256", "AgileKeypair::pubkey")) :=
  (c7_keypair_validate_spec
    (AgileKeypair.mk ⟨KexAlg.X25519, []⟩ ⟨KexAlg.DhP256, []⟩)).2.1 (by decide)

/-- C8: the three AeadAlg values round-trip through `to_u16` and
`try_from_u16` (their ids being 0x01, 0x02, 0x03), and every other id —
0xFF in particular — yields the UnknownAlgIdent error carrying the family
name "AeadAlg" and the offending id. -/
theorem c8_aead_id_roundtrip :
    (∀ a : AeadAlg, AeadAlg.try_from_u16 a.to_u16 = Except.ok a) ∧
      ∀ id : Nat, id ≠ 0x01 → id ≠ 0x02 → id ≠ 0x03 →
        AeadAlg.try_from_u16 id =
          Except.error (AgileHpkeError.UnknownAlgIdent "AeadAlg" id) := by
  constructor
  · intro a
    cases a <;> rfl
  · intro id h1 h2 h3
    match id, h1, h2, h3 with
    | 0, _, _, _ => rfl
    | 1, h1, _, _ => exact absurd rfl h1
    | 2, _, h2, _ => exact absurd rfl h2
    | 3, _, _, h3 => exact absurd rfl h3
    | (n + 4), _, _, _ => rfl

/-- Witness for C8: the round trip at ChaCha20Poly1305 and the rejection
of id 0xFF. -/
theorem c8_aead_id_roundtrip_witness :
    AeadAlg.try_from_u16 (AeadAlg.to_u16 AeadAlg.ChaCha20Poly1305) =
        Except.ok AeadAlg.ChaCha20Poly1305 ∧
      AeadAlg.try_from_u16 0xFF =
        Except.error (AgileHpkeError.UnknownAlgIdent "AeadAlg" 0xFF) :=
  ⟨c8_aead_id_roundtrip.1 AeadAlg.ChaCha20Poly1305,
    c8_aead_id_roundtrip.2 0xFF (by decide) (by decide) (by decide)⟩

/-- C9: the third validation branch of `agile_setup_sender` (the
`pk_recip` vs `mode` tag comparison that follows the `kem_alg` check) is
unreachable as an error: the function never returns the AlgMismatch that
branch would construct, because the first check already forced the two
tags to be equal, and no other branch builds an error with those
locations. -/
theorem sender_validate_error_first_loc (m : AgileOpModeS) (e : AgileHpkeError)
    (h : m.validate = Except.error e) :
    (∃ x y, e = AgileHpkeError.AlgMismatch (x, "AgileOpModeS::kex_alg") y) ∨
      (∃ x y, e = AgileHpkeError.AlgMismatch (x, "AgileOpModeS::kdf_alg") y) ∨
      ∃ x y, e = AgileHpkeError.AlgMismatch (x, "AgileKeypair::privkey") y := by
  rcases m with ⟨kx, kd, ty⟩
  cases ty with
  | Base => simp [AgileOpModeS.validate] at h
  | Psk b =>
    by_cases h1 : b.kex_alg = kx
    · by_cases h2 : b.kdf_alg = kd
      · simp [AgileOpModeS.validate, h1, h2] at h
      · simp [AgileOpModeS.validate, h1, h2] at h
        exact Or.inr (Or.inl ⟨_, _, h.symm⟩)
    · simp [AgileOpModeS.validate, h1] at h
      exact Or.inl ⟨_, _, h.symm⟩
  | Auth kp =>
    by_cases h1 : kp.fst.kex_alg = kp.snd.kex_alg
    · by_cases h2 : kp.snd.kex_alg = kx
      · simp [AgileOpModeS.validate, AgileKeypair.validate, h1, h2] at h
      · simp [AgileOpModeS.validate, AgileKeypair.validate, h1, h2] at h
        exact Or.inl ⟨_, _, h.symm⟩
    · simp [AgileOpModeS.validate, AgileKeypair.validate, h1] at h
      exact Or.inr (Or.inr ⟨_, _, h.symm⟩)
  | AuthPsk kp b =>
    by_cases h1 : kp.fst.kex_alg = kp.snd.kex_alg
    · by_cases h2 : b.kex_alg = kx
      · by_cases h3 : b.kdf_alg = kd
        · by_cases h4 : kp.snd.kex_alg = kx
          · simp [AgileOpModeS.validate, AgileKeypair.validate, h1, h2, h3, h4] at h
          · simp [AgileOpModeS.validate, AgileKeypair.validate, h1, h2, h3, h4] at h
            exact Or.inl ⟨_, _, h.symm⟩
        · simp [AgileOpModeS.validate, AgileKeypair.validate, h1, h2, h3] at h
          exact Or.inr (Or.inl ⟨_, _, h.symm⟩)
      · simp [AgileOpModeS.validate, AgileKeypair.validate, h1, h2] at h
        exact Or.inl ⟨_, _, h.symm⟩
    · simp [AgileOpModeS.validate, AgileKeypair.validate, h1] at h
      exact Or.inr (Or.inr ⟨_, _, h.symm⟩)

theorem c9_sender_recheck_unreachable (aead_alg : AeadAlg) (kem_alg : KemAlg)
    (mode : AgileOpModeS) (pk_recip : AgilePublicKey) :
    agile_setup_sender aead_alg kem_alg mode pk_recip ≠
      SetupResult.error (AgileHpkeError.AlgMismatch
        (pk_recip.kex_alg.name, "pk_recip::kex_alg")
        (mode.kex_alg.name, "mode::kex_alg")) := by
  rcases hv : mode.validate with e | u
  · have hshape := sender_validate_error_first_loc mode e hv
    simp only [agile_setup_sender, hv]
    intro hcontra
    injection hcontra with h
    rcases hshape with ⟨x, y, rfl⟩ | ⟨x, y, rfl⟩ | ⟨x, y, rfl⟩ <;> simp at h
  · simp only [agile_setup_sender, hv]
    by_cases h1 : mode.kex_alg ≠ pk_recip.kex_alg
    · simp [h1]
    · by_cases h2 : kem_alg.kex_alg ≠ mode.kex_alg
      · simp [h1, h2]
      · have h3 : ¬pk_recip.kex_alg ≠ mode.kex_alg := by
          simp only [not_not] at h1
          simp [h1]
        by_cases h4 : dispatch_supported aead_alg kem_alg mode.kdf_alg <;>
          simp [h1, h2, h3, h4]

/-- C10: for the two implemented KexAlg families, `agile_gen_keypair`
returns a keypair whose private and public components both carry the
requested tag, so `AgileKeypair.validate` on the result always
succeeds. -/
theorem c10_gen_keypair_tags (kex_alg : KexAlg) (gen : KeygenOutput)
    (h : kex_alg = KexAlg.X25519 ∨ kex_alg = KexAlg.DhP256) :
    agile_gen_keypair kex_alg gen =
        some (AgileKeypair.mk ⟨kex_alg, gen.sk_bytes⟩ ⟨kex_alg, gen.pk_bytes⟩) ∧
      ∀ kp : AgileKeypair, agile_gen_keypair kex_alg gen = some kp →
        kp.fst.kex_alg = kex_alg ∧ kp.snd.kex_alg = kex_alg ∧
          kp.validate = Except.ok () := by
  rcases h with h | h <;> subst h <;>
    refine ⟨rfl, ?_⟩ <;> intro kp hkp <;>
    simp only [agile_gen_keypair, Option.some.injEq] at hkp <;>
    subst hkp <;> simp [AgileKeypair.validate]

/-- Witness for C10 at X25519 with concrete generated bytes. -/
theorem c10_gen_keypair_tags_witness :
    agile_gen_keypair KexAlg.X25519 ⟨[1], [2]⟩ =
      some (AgileKeypair.mk ⟨KexAlg.X25519, [1]⟩ ⟨KexAlg.X25519, [2]⟩) :=
  (c10_gen_keypair_tags KexAlg.X25519 ⟨[1], [2]⟩ (Or.inl rfl)).1

end Hpke
